import Mathlib

/-!
Verification of the Procure2Pay core: the sequential multi-level approval
state machine (`requests_app/models.py`) and the document-understanding
pipeline (`requests_app/services/document_processing.py`).

Conventions of the embedding:
* Strings from the program are represented as lists of Unicode code points
  (`List Nat`); `codes` injects Lean string literals.
* Python `decimal.Decimal` values are represented exactly by an integer
  coefficient together with the count of fractional digits (`Dec`).
* Database rows are plain records; `update_or_create` on the
  `(request, level)`-unique `ApprovalStep` table is an association-list
  update; `save(update_fields=...)` is a record update of those fields.
* An operation that can raise (`ValueError`, `InvalidOperation`) returns
  `Except`/`Option`; an exception inside `transaction.atomic` rolls the
  transaction back, so an error result corresponds to an unchanged database.
* Wall-clock data (`decided_at`, `updated_at`, `extracted_on`, `po_number`,
  `generated_at`) and the rendered PDF artifact are outside the model.
* The AI extraction path (`_extract_with_ai`) requires an `OPENAI_API_KEY`;
  throughout we model the configuration in which no credential is set, so
  that the call returns `None` and the deterministic fallback runs.
-/

namespace Procure2Pay

/-! ## Code-point strings and character classes -/

/-- The code points of a string literal. -/
def codes (s : String) : List Nat := s.toList.map Char.toNat

/-- ASCII decimal digit (regex `\d`). -/
def isDigitC (n : Nat) : Bool := 48 ≤ n && n ≤ 57

/-- Python `str.isspace` on the characters occurring here (regex `\s`). -/
def isSpaceC (n : Nat) : Bool :=
  n == 32 || n == 9 || n == 10 || n == 13 || n == 11 || n == 12

/-- Lower-case a single ASCII code point (Python `str.lower`). -/
def lowerC (n : Nat) : Nat := if 65 ≤ n && n ≤ 90 then n + 32 else n

/-- Python `str.lower`. -/
def lower (cs : List Nat) : List Nat := cs.map lowerC

/-- Python `str.strip`: drop whitespace from both ends. -/
def strip (cs : List Nat) : List Nat :=
  ((cs.dropWhile isSpaceC).reverse.dropWhile isSpaceC).reverse

/-- Python `str.replace(",", "")`. -/
def stripCommas (cs : List Nat) : List Nat := cs.filter (fun c => !(c == 44))

/-! ## Exact decimals

Python `decimal.Decimal` restricted to the plain finite numerals this
program produces: a coefficient and a fractional-digit count, so
`Decimal("1050.00")` is `⟨105000, 2⟩` and `Decimal("1000")` is `⟨1000, 0⟩`. -/

structure Dec where
  mant : Int
  frac : Nat
deriving DecidableEq, Repr

/-- Python `Decimal.__eq__`: exact numeric comparison (trailing zeros do not
matter, so `Decimal("1000") == Decimal("1000.00")`). -/
def Dec.numEq (a b : Dec) : Bool :=
  a.mant * (10 : Int) ^ b.frac == b.mant * (10 : Int) ^ a.frac

/-- Python `not total` for a `Decimal`: zero is falsy. -/
def Dec.isZero (a : Dec) : Bool := a.mant == 0

/-- Decimal digits of a natural number, most significant first. -/
def natDigits (n : Nat) : List Nat := (Nat.toDigits 10 n).map Char.toNat

/-- Python `str` on a `Decimal` (non-scientific rendering, which is what
`str` produces for every value arising here): zero-pad the coefficient to at
least `frac + 1` digits and insert the point. -/
def Dec.render (d : Dec) : List Nat :=
  let sign : List Nat := if d.mant < 0 then [45] else []
  let ds0 := natDigits d.mant.natAbs
  let ds := if ds0.length ≤ d.frac then List.replicate (d.frac + 1 - ds0.length) 48 ++ ds0 else ds0
  if d.frac = 0 then sign ++ ds
  else sign ++ ds.take (ds.length - d.frac) ++ [46] ++ ds.drop (ds.length - d.frac)

/-- Numeric value of a digit string, most significant first. -/
def digitsToNat (cs : List Nat) : Nat := cs.foldl (fun a c => a * 10 + (c - 48)) 0

/-- Python `Decimal(string)` on the plain-numeral fragment
`[ws] [sign] digits [. digits] [ws]` used by this program; any other input
raises `InvalidOperation` in the source and is `none` here. -/
def decParse (cs0 : List Nat) : Option Dec :=
  let cs := strip cs0
  let signed : Bool × List Nat :=
    match cs with
    | 45 :: t => (true, t)
    | 43 :: t => (false, t)
    | t => (false, t)
  let ip := signed.2.takeWhile isDigitC
  let rest := signed.2.dropWhile isDigitC
  match rest with
  | [] =>
    if ip.isEmpty then none
    else some ⟨(if signed.1 then -1 else 1) * (digitsToNat ip : Int), 0⟩
  | 46 :: fp =>
    if fp.all isDigitC && !(ip.isEmpty && fp.isEmpty) then
      some ⟨(if signed.1 then -1 else 1) * (digitsToNat (ip ++ fp) : Int), fp.length⟩
    else none
  | _ => none

/-- Python `int(string)`: optional surrounding whitespace, optional sign,
at least one digit; anything else raises `ValueError` (`none`). -/
def intParse (cs0 : List Nat) : Option Int :=
  let cs := strip cs0
  let signed : Bool × List Nat :=
    match cs with
    | 45 :: t => (true, t)
    | 43 :: t => (false, t)
    | t => (false, t)
  if signed.2.isEmpty || !signed.2.all isDigitC then none
  else some ((if signed.1 then -1 else 1) * (digitsToNat signed.2 : Int))

/-! ## The approval state machine (`requests_app/models.py`)

`PurchaseRequest` with its owned `ApprovalStep` rows.  `steps` is the
association list level ↦ step (unique per `(request, level)`). -/

inductive Status where
  | pending
  | approved
  | rejected
deriving DecidableEq, Repr

inductive Decision where
  | pending
  | approved
  | rejected
deriving DecidableEq, Repr

structure Step where
  approver : Option Nat
  decision : Decision
  metadata : List (String × String)
deriving DecidableEq, Repr

structure Req where
  title : String
  amount : Dec
  created_by : Nat
  status : Status
  approved_by : Option Nat
  current_approval_level : Nat
  required_approval_levels : Nat
  steps : List (Nat × Step)
deriving DecidableEq, Repr

/-- `PurchaseRequest.is_terminal`: `status in {APPROVED, REJECTED}`. -/
def Req.is_terminal (r : Req) : Bool :=
  match r.status with
  | .approved => true
  | .rejected => true
  | .pending => false

/-- `ApprovalStep.objects.update_or_create(request=·, level=·, defaults=·)`:
replace the unique row with this level, or create it if absent. -/
def setStep : List (Nat × Step) → Nat → Step → List (Nat × Step)
  | [], level, s => [(level, s)]
  | p :: t, level, s => if p.1 = level then (level, s) :: t else p :: setStep t level s

/-- `PurchaseRequest.mark_approved(approver, metadata)`.  Raises `ValueError`
on a terminal request (before any write); otherwise records the approval step
for the current level and either finalizes (`level >= required`) or
increments the level by one, saving
`current_approval_level`, `status`, `approved_by` (and `updated_at`). -/
def mark_approved (r : Req) (approver : Nat)
    (metadata : Option (List (String × String))) : Except String Req :=
  if r.is_terminal then .error "Cannot approve a terminal request"
  else
    let level := r.current_approval_level
    let steps := setStep r.steps level ⟨some approver, .approved, metadata.getD []⟩
    if r.required_approval_levels ≤ level then
      .ok { r with steps := steps, status := .approved, approved_by := some approver }
    else
      .ok { r with steps := steps, current_approval_level := level + 1 }

/-- `PurchaseRequest.mark_rejected(approver, reason)`.  Raises `ValueError`
on a terminal request; otherwise records the rejected step for the current
level with metadata `{"reason": reason}` and saves
`status`, `approved_by` (and `updated_at`). -/
def mark_rejected (r : Req) (approver : Nat) (reason : String) : Except String Req :=
  if r.is_terminal then .error "Cannot reject a terminal request"
  else
    .ok { r with
          steps := setStep r.steps r.current_approval_level
            ⟨some approver, .rejected, [("reason", reason)]⟩,
          status := .rejected,
          approved_by := some approver }

/-- Observable database state after calling `mark_approved`: a raised
`ValueError` aborts the `transaction.atomic` block, leaving the row (and all
approval steps) exactly as they were. -/
def approveOutcome (r : Req) (approver : Nat)
    (metadata : Option (List (String × String))) : Req :=
  match mark_approved r approver metadata with
  | .ok r' => r'
  | .error _ => r

/-- Observable database state after calling `mark_rejected` (rollback on a
`ValueError`). -/
def rejectOutcome (r : Req) (approver : Nat) (reason : String) : Req :=
  match mark_rejected r approver reason with
  | .ok r' => r'
  | .error _ => r

/-- A freshly created request
(`PurchaseRequestWriteSerializer.create`): status `PENDING`,
`current_approval_level = 1`, `required_approval_levels = 2`
(`len(WORKFLOW_ROLES)`), one pre-seeded `PENDING` step per level. -/
def initReq (title : String) (amount : Dec) (creator : Nat) : Req :=
  { title := title
    amount := amount
    created_by := creator
    status := .pending
    approved_by := none
    current_approval_level := 1
    required_approval_levels := 2
    steps := (List.range 2).map (fun i => (i + 1, ⟨none, .pending, []⟩)) }

/-- The request states reachable through the two state-transition
operations from creation. -/
inductive Reachable : Req → Prop where
  | init : ∀ t a c, Reachable (initReq t a c)
  | approve : ∀ r a md r', Reachable r → mark_approved r a md = .ok r' → Reachable r'
  | reject : ∀ r a s r', Reachable r → mark_rejected r a s = .ok r' → Reachable r'

/-! ## A backtracking regular-expression engine

The extraction code builds on `re.search` / `re.findall` with
`re.IGNORECASE`.  We embed the exact patterns as syntax trees and interpret
them with Python's backtracking semantics: alternation is left-first, greedy
repetition prefers longer matches, lazy repetition prefers shorter ones,
`re.search` takes the earliest start position, and capture groups record the
most recent capture.  The interpreter is written in success-continuation
style so that it finds exactly the first match in Python's preference order;
`fuel` bounds the recursion depth and is chosen large enough for every
concrete text considered here. -/

inductive RE where
  | eps
  | cls (p : Nat → Bool)
  | seq (a b : RE)
  | alt (a b : RE)
  | star (lazy : Bool) (a : RE)
  | group (i : Nat) (a : RE)
  | bos
  | eol

/-- Captured groups of a match, most recent first (index ↦ code points). -/
abbrev Groups := List (Nat × List Nat)

def getGroup (g : Groups) (i : Nat) : Option (List Nat) := g.lookup i

/-- Run `re` against the suffix `s` with continuation `k`; `full` is the
whole subject (for the `^`/`$` anchors).  Returns the first success in
Python's backtracking order.  A star never repeats a body that consumed
nothing (every starred body in the embedded patterns consumes a character,
as Python's engine also refuses empty repetitions). -/
def runk (full : List Nat) : Nat → RE → List Nat → Groups →
    (List Nat → Groups → Option (List Nat × Groups)) → Option (List Nat × Groups)
  | 0, _, _, _, _ => none
  | _ + 1, .eps, s, g, k => k s g
  | _ + 1, .cls p, s, g, k =>
    match s with
    | [] => none
    | c :: rest => if p c then k rest g else none
  | fuel + 1, .seq a b, s, g, k =>
    runk full fuel a s g (fun s1 g1 => runk full fuel b s1 g1 k)
  | fuel + 1, .alt a b, s, g, k =>
    match runk full fuel a s g k with
    | some res => some res
    | none => runk full fuel b s g k
  | fuel + 1, .star lz a, s, g, k =>
    if lz then
      match k s g with
      | some res => some res
      | none =>
        runk full fuel a s g (fun s1 g1 =>
          if s1.length < s.length then runk full fuel (.star lz a) s1 g1 k else none)
    else
      match runk full fuel a s g (fun s1 g1 =>
          if s1.length < s.length then runk full fuel (.star lz a) s1 g1 k else none) with
      | some res => some res
      | none => k s g
  | fuel + 1, .group i a, s, g, k =>
    runk full fuel a s g (fun s1 g1 => k s1 ((i, s.take (s.length - s1.length)) :: g1))
  | _ + 1, .bos, s, g, k => if s.length == full.length then k s g else none
  | _ + 1, .eol, s, g, k => if s.isEmpty || s == [10] then k s g else none

/-- Recursion bound for `runk`; ample for the texts considered here. -/
def reFuel : Nat := 10000

/-- First match at or after the start of `s` (Python scans start positions
left to right).  Returns the suffix where the match starts, the suffix after
the match, and the captured groups. -/
def searchFrom (re : RE) (full : List Nat) : List Nat → Option (List Nat × List Nat × Groups)
  | [] =>
    match runk full reFuel re [] [] (fun rest g => some (rest, g)) with
    | some (rest, g) => some ([], rest, g)
    | none => none
  | c :: t =>
    match runk full reFuel re (c :: t) [] (fun rest g => some (rest, g)) with
    | some (rest, g) => some (c :: t, rest, g)
    | none => searchFrom re full t

/-- `re.search(pattern, text)`, returning the groups of the match. -/
def reSearchGroups (re : RE) (text : List Nat) : Option Groups :=
  (searchFrom re text text).map (fun x => x.2.2)

/-- `re.findall`: successive non-overlapping matches, scanning left to
right and continuing after each match (advancing one character after an
empty match). -/
def findAllAux (re : RE) (full : List Nat) : Nat → List Nat → List Groups
  | 0, _ => []
  | fuel + 1, s =>
    match searchFrom re full s with
    | none => []
    | some (stAt, rest, g) =>
      if rest.length == stAt.length then
        match rest with
        | [] => [g]
        | _ :: t => g :: findAllAux re full fuel t
      else g :: findAllAux re full fuel rest

def findAll (re : RE) (text : List Nat) : List Groups :=
  findAllAux re text (text.length + 1) text

/-- The tuple of all `n` groups of one `findall` match; as in Python,
a group that did not participate is the empty string. -/
def groupsTuple (n : Nat) (g : Groups) : List (List Nat) :=
  (List.range n).map (fun i => (getGroup g (i + 1)).getD [])

/-! ### Pattern constructors mirroring the regex syntax -/

/-- A literal character under `re.IGNORECASE`. -/
def litCI (c : Char) : RE := .cls (fun n => lowerC n == lowerC c.toNat)

/-- A case-sensitive literal character (used for non-letters). -/
def lit (c : Char) : RE := .cls (fun n => n == c.toNat)

/-- A literal word under `re.IGNORECASE`. -/
def strCI (s : String) : RE := s.toList.foldr (fun c r => .seq (litCI c) r) .eps

def reSeq (l : List RE) : RE := l.foldr .seq .eps

def alts : List RE → RE
  | [] => .eps
  | [r] => r
  | r :: t => .alt r (alts t)

/-- Greedy `r?`. -/
def optG (r : RE) : RE := .alt r .eps

/-- Greedy `r*`. -/
def starG (r : RE) : RE := .star false r

/-- Lazy `r*?`. -/
def starL (r : RE) : RE := .star true r

/-- Greedy `r+`. -/
def plusG (r : RE) : RE := .seq r (starG r)

/-- `r{n}`. -/
def repE (r : RE) (n : Nat) : RE := reSeq (List.replicate n r)

/-- `\d`. -/
def digitC : RE := .cls isDigitC

/-- `\s`. -/
def spaceC : RE := .cls isSpaceC

/-- `.` (anything but a newline). -/
def dotC : RE := .cls (fun n => !(n == 10))

/-- `[$€£]`. -/
def currC : RE := .cls (fun n => n == 36 || n == 8364 || n == 163)

/-- `[:\-]`. -/
def colonDashC : RE := .cls (fun n => n == 58 || n == 45)

/-- `[A-Z]` under `re.IGNORECASE`. -/
def alphaC : RE := .cls (fun n => (65 ≤ n && n ≤ 90) || (97 ≤ n && n ≤ 122))

/-! ### The concrete patterns of `document_processing.py` -/

/-- `\d+(?:,\d{3})*(?:\.\d{1,2})?` -/
def numRE : RE :=
  reSeq [plusG digitC,
         starG (reSeq [lit ',', repE digitC 3]),
         optG (reSeq [lit '.', .seq digitC (optG digitC)])]

/-- `(?:Total|Grand Total|Amount)[:\-]?\s*([$€£]?)(\d+(?:,\d{3})*(?:\.\d{1,2})?)` -/
def totalRE : RE :=
  reSeq [alts [strCI "Total", strCI "Grand Total", strCI "Amount"],
         optG colonDashC, starG spaceC,
         .group 1 (optG currC),
         .group 2 numRE]

/-- `(?:Vendor|Supplier|Company)[:\-]?\s*(.*?)(?:\n|$)` (the receipt-side
vendor pattern). -/
def vendorCoreRE : RE :=
  reSeq [alts [strCI "Vendor", strCI "Supplier", strCI "Company"],
         optG colonDashC, starG spaceC,
         .group 1 (starL dotC),
         .alt (lit '\n') .eol]

/-- `(?:^|\n)(?:Vendor|Supplier|Company)[:\-]?\s*(.*?)(?:\n|$)` (the
proforma-side vendor pattern). -/
def vendorProformaRE : RE := .seq (.alt .bos (lit '\n')) vendorCoreRE

/-- `(?:Currency|Curr)[:\-]?\s*([A-Z]{3})` -/
def currencyRE : RE :=
  reSeq [.alt (strCI "Currency") (strCI "Curr"),
         optG colonDashC, starG spaceC,
         .group 1 (repE alphaC 3)]

/-- Proforma items:
`(?:Item|Product|Description)[:\-]?\s*(.*?)\s*(?:Qty|Quantity)[:\-]?\s*(\d+)\s*(?:Price|Unit Price|Rate)[:\-]?\s*([$€£]?)(\d+(?:,\d{3})*(?:\.\d{1,2})?)` -/
def itemProformaRE : RE :=
  reSeq [alts [strCI "Item", strCI "Product", strCI "Description"],
         optG colonDashC, starG spaceC,
         .group 1 (starL dotC),
         starG spaceC,
         .alt (strCI "Qty") (strCI "Quantity"),
         optG colonDashC, starG spaceC,
         .group 2 (plusG digitC),
         starG spaceC,
         alts [strCI "Price", strCI "Unit Price", strCI "Rate"],
         optG colonDashC, starG spaceC,
         .group 3 (optG currC),
         .group 4 numRE]

/-- Receipt items, first shape (label-prefixed fields). -/
def itemReceipt1RE : RE :=
  reSeq [alts [strCI "Item", strCI "Product", strCI "Description"],
         optG colonDashC, starG spaceC,
         .group 1 (starL dotC),
         starG spaceC,
         alts [strCI "Qty", strCI "Quantity", strCI "QTY"],
         optG colonDashC, starG spaceC,
         .group 2 (plusG digitC),
         starG spaceC,
         alts [strCI "Price", strCI "Unit Price", strCI "Rate", strCI "Cost"],
         optG colonDashC, starG spaceC,
         .group 3 (optG currC),
         .group 4 numRE]

/-- Receipt items, second shape:
`(.*?)\s*x?\s*(\d+)\s*@?\s*([$€£]?)(\d+(?:,\d{3})*(?:\.\d{1,2})?)` -/
def itemReceipt2RE : RE :=
  reSeq [.group 1 (starL dotC), starG spaceC, optG (litCI 'x'), starG spaceC,
         .group 2 (plusG digitC), starG spaceC, optG (lit '@'), starG spaceC,
         .group 3 (optG currC), .group 4 numRE]

/-- Receipt items, third shape:
`(\d+)\s*x?\s*(.*?)\s*@?\s*([$€£]?)(\d+(?:,\d{3})*(?:\.\d{1,2})?)` -/
def itemReceipt3RE : RE :=
  reSeq [.group 1 (plusG digitC), starG spaceC, optG (litCI 'x'), starG spaceC,
         .group 2 (starL dotC), starG spaceC, optG (lit '@'), starG spaceC,
         .group 3 (optG currC), .group 4 numRE]

/-! ## `_extract_number_from_text` -/

/-- The loop condition `if group and re.search(r"\d", group)`: the group
participated, is non-empty, and contains a digit. -/
def digitBearing (g : Option (List Nat)) : Bool :=
  match g with
  | some cs => !cs.isEmpty && cs.any isDigitC
  | none => false

/-- The selection loop of `_extract_number_from_text` applied to
`match.groups()`: walk the groups reversed, take the first digit-bearing
one, remove commas, strip, and parse it as a `Decimal`; `None` when no
group qualifies or parsing raises. -/
def numberFromGroups (gs : List (Option (List Nat))) : Option Dec :=
  match gs.reverse.find? digitBearing with
  | some (some cs) => decParse (strip (stripCommas cs))
  | _ => none

/-- `_extract_number_from_text(pattern, text)` for a pattern with `ngroups`
capture groups. -/
def extract_number_from_text (re : RE) (ngroups : Nat) (text : List Nat) : Option Dec :=
  match reSearchGroups re text with
  | none => none
  | some g => numberFromGroups ((List.range ngroups).map (fun i => getGroup g (i + 1)))

/-! ## Item extraction -/

/-- An extracted line item (`{"description", "quantity", "unit_price"}`
with a `Decimal` price). -/
structure Item where
  description : List Nat
  quantity : Int
  unit_price : Dec
deriving DecidableEq, Repr

/-- One `findall` tuple `(desc, qty, currency, price)` to an item:
`int(qty)` and `Decimal(price.replace(",", ""))`, dropping the tuple
(`continue`) when either conversion raises. -/
def itemOfTuple (t : List (List Nat)) : Option Item :=
  match t with
  | [desc, qty, _cur, price] =>
    match intParse qty, decParse (stripCommas price) with
    | some q, some p => some ⟨strip desc, q, p⟩
    | _, _ => none
  | _ => none

def itemsFromMatches (ms : List Groups) : List Item :=
  ms.filterMap (fun g => itemOfTuple (groupsTuple 4 g))

/-- `_extract_items_from_text(text)` with no AI credential configured: the
three item patterns are applied in order and their parsed matches
concatenated; when that yields nothing the AI fallback returns `None`, so
the list stays empty. -/
def extract_items_from_text (text : List Nat) : List Item :=
  (itemsFromMatches (findAll itemReceipt1RE text) ++
    itemsFromMatches (findAll itemReceipt2RE text)) ++
    itemsFromMatches (findAll itemReceipt3RE text)

/-! ## `extract_proforma_metadata` (deterministic path) -/

/-- The metadata record built by `extract_proforma_metadata`
(`extracted_on` and `source` are constants/wall-clock and omitted). -/
structure ProformaMeta where
  vendor : List Nat
  currency : List Nat
  total_amount : List Nat
  items : List Item
  raw_excerpt : List Nat
  extraction_method : List Nat
  extraction_error : Bool
deriving DecidableEq, Repr

/-- The regex-fallback body of `extract_proforma_metadata` applied to the
text extracted from the uploaded file, in the configuration without an AI
credential (`_extract_with_ai` returns `None`). -/
def extract_proforma_metadata (text : List Nat) : ProformaMeta :=
  let vendorMatch := reSearchGroups vendorProformaRE text
  let currencyMatch := reSearchGroups currencyRE text
  let total := extract_number_from_text totalRE 2 text
  let items := itemsFromMatches (findAll itemProformaRE text)
  { vendor :=
      match vendorMatch with
      | some g => strip ((getGroup g 1).getD [])
      | none => codes "Unknown Vendor"
    currency :=
      match currencyMatch with
      | some g => (getGroup g 1).getD []
      | none => codes "USD"
    total_amount :=
      match total with
      | some d => d.render
      | none => codes "0"
    items := items
    raw_excerpt := text.take 500
    extraction_method := codes "regex"
    extraction_error :=
      text.isEmpty ||
        (!text.isEmpty && vendorMatch.isNone &&
          (match total with
           | none => true
           | some d => d.isZero)) }

/-! ## `generate_purchase_order` (metadata snapshot)

`purchase_order_metadata` keys `vendor`, `currency`, `total_amount`,
`items`; `po_number`/`generated_at` are derived from the clock and the PDF
artifact is rendering, both outside the model.  JSON values are modelled at
the type every consumer observes: each numeric field is read back through
`str(...)`, so amounts are carried as their rendered strings. -/

structure POItem where
  description : List Nat
  quantity : Int
  unit_price : List Nat
deriving DecidableEq, Repr

/-- A stored `proforma_metadata` JSON blob; `none` in a field means the key
is absent from the dict. -/
structure PMetaJson where
  vendor : Option (List Nat)
  currency : Option (List Nat)
  total_amount : Option (List Nat)
  items : Option (List POItem)
deriving DecidableEq, Repr

def emptyPMetaJson : PMetaJson := ⟨none, none, none, none⟩

/-- A `RequestItem` row. -/
structure RItem where
  description : List Nat
  quantity : Int
  unit_price : Dec
deriving DecidableEq, Repr

structure POData where
  vendor : List Nat
  currency : List Nat
  total_amount : List Nat
  items : List POItem
deriving DecidableEq, Repr

/-- The snapshot computed by `generate_purchase_order`:
`metadata = request.proforma_metadata or {}` (`none` = falsy, i.e. absent or
empty dict), then `metadata.get(key, default)` for each field — in
particular `items` falls back to the request's own `RequestItem` rows only
when the `"items"` key is absent. -/
def generate_purchase_order (pm : Option PMetaJson) (amount : Dec)
    (reqItems : List RItem) : POData :=
  let m := pm.getD emptyPMetaJson
  { vendor := m.vendor.getD (codes "Unknown Vendor")
    currency := m.currency.getD (codes "USD")
    total_amount := m.total_amount.getD amount.render
    items := m.items.getD
      (reqItems.map (fun it => ⟨it.description, it.quantity, it.unit_price.render⟩)) }

/-- A generated snapshot always carries all four keys. -/
def POData.toJson (po : POData) : PMetaJson :=
  ⟨some po.vendor, some po.currency, some po.total_amount, some po.items⟩

/-! ## `validate_receipt` -/

/-- `po_metadata.get("vendor", "")`. -/
def pmVendor (po : PMetaJson) : List Nat := po.vendor.getD []

/-- `po_metadata.get("total_amount", "0")`. -/
def pmTotal (po : PMetaJson) : List Nat := po.total_amount.getD (codes "0")

/-- `po_metadata.get("items", [])`. -/
def pmItems (po : PMetaJson) : List POItem := po.items.getD []

/-- One entry of `mismatches["items"]`: `expected` is present for an
unmatched PO item and absent in the no-items-found entry. -/
structure ItemMismatch where
  expected : Option POItem
  reason : List Nat
deriving DecidableEq, Repr

/-- The dict returned by `validate_receipt`; an `Option` field is `none`
when the corresponding key is absent from the returned value.  The
`expected` side of the vendor/amount mismatches is
`po_metadata.get(key)` (no default, hence optional). -/
structure ValidationResult where
  is_valid : Bool
  reason : Option (List Nat)
  vendor_mm : Option (Option (List Nat) × List Nat)
  amount_mm : Option (Option (List Nat) × List Nat)
  items_mm : Option (List ItemMismatch)
  raw_excerpt : Option (List Nat)
deriving DecidableEq, Repr

/-- The vendor comparison: a mismatch `{expected, actual}` is recorded only
when a vendor label was found in the receipt and the stripped capture
differs case-insensitively from `po_metadata.get("vendor", "")`. -/
def vendorCheck (text : List Nat) (po : PMetaJson) :
    Option (Option (List Nat) × List Nat) :=
  match reSearchGroups vendorCoreRE text with
  | none => none
  | some g =>
    let rv := strip ((getGroup g 1).getD [])
    if lower rv == lower (pmVendor po) then none
    else some (po.vendor, rv)

/-- The amount comparison.  The outer `Option` is exception propagation:
`Decimal(str(po_metadata.get("total_amount", "0")))` raises
`InvalidOperation` on a non-numeric stored total.  The inner value is the
recorded mismatch, if any: present exactly when a total was found in the
receipt and `Decimal(str(total)) != Decimal(str(po_total))`. -/
def amountCheck (text : List Nat) (po : PMetaJson) :
    Option (Option (Option (List Nat) × List Nat)) :=
  match extract_number_from_text totalRE 2 text with
  | none => some none
  | some d =>
    match decParse d.render with
    | none => none
    | some a =>
      match decParse (pmTotal po) with
      | none => none
      | some b =>
        some (if a.numEq b then none else some (po.total_amount, d.render))

/-- One PO item against one receipt item, with Python's short-circuit: the
`Decimal` conversions (which can raise, outer `none`) run only when
description and quantity already agree. -/
def poItemMatches (p : POItem) (r : Item) : Option Bool :=
  if strip (lower p.description) == strip (lower r.description) &&
      p.quantity == r.quantity then
    match decParse p.unit_price, decParse r.unit_price.render with
    | some a, some b => some (a.numEq b)
    | _, _ => none
  else some false

/-- The inner loop over receipt items (`break` on the first match). -/
def findRecMatch (p : POItem) : List Item → Option Bool
  | [] => some false
  | r :: rs =>
    match poItemMatches p r with
    | none => none
    | some true => some true
    | some false => findRecMatch p rs

/-- The outer loop over PO items, collecting the unmatched ones in order. -/
def collectItemMms (recItems : List Item) : List POItem → Option (List ItemMismatch)
  | [] => some []
  | p :: ps =>
    match findRecMatch p recItems with
    | none => none
    | some true => collectItemMms recItems ps
    | some false =>
      (collectItemMms recItems ps).map
        (fun rest => ⟨some p, codes "No matching item in receipt"⟩ :: rest)

/-- `mismatches["items"]`: compared only when the PO has items and the
receipt yielded items; a PO with items against an itemless receipt records
the single no-items entry; a PO without items skips the comparison. -/
def itemsCheck (text : List Nat) (po : PMetaJson) :
    Option (Option (List ItemMismatch)) :=
  let poItems := pmItems po
  let recItems := extract_items_from_text text
  if !poItems.isEmpty && !recItems.isEmpty then
    match collectItemMms recItems poItems with
    | none => none
    | some mms => some (if mms.isEmpty then none else some mms)
  else if !poItems.isEmpty then
    some (some [⟨none, codes "No items found in receipt"⟩])
  else
    some none

/-- `validate_receipt(receipt_file, po_metadata)`.  The first argument is
the text `_extract_text` yields from the receipt (`none` for a falsy
`receipt_file`); the second is `none` for a falsy (`None` or empty)
`po_metadata`.  The result is `none` when the body raises
(`InvalidOperation` from a `Decimal` conversion). -/
def validate_receipt (receipt_text : Option (List Nat)) (po : Option PMetaJson) :
    Option ValidationResult :=
  match receipt_text, po with
  | some text, some pm =>
    let vm := vendorCheck text pm
    match amountCheck text pm with
    | none => none
    | some am =>
      match itemsCheck text pm with
      | none => none
      | some im =>
        some { is_valid := vm.isNone && am.isNone && im.isNone
               reason := none
               vendor_mm := vm
               amount_mm := am
               items_mm := im
               raw_excerpt := some (text.take 500) }
  | _, _ =>
    some { is_valid := false
           reason := some (codes "Missing receipt or PO metadata.")
           vendor_mm := none
           amount_mm := none
           items_mm := none
           raw_excerpt := none }

/-! ## Concrete data for the testable scenarios -/

/-- The §8 fallback-determinism proforma text. -/
def c7Text : String :=
  "Vendor: Acme Supplies Inc.\nCurrency: USD\nItem: Laptop Qty: 1 Unit Price: 1000.00\nItem: Mouse Qty: 2 Unit Price: 25.00\nTotal Amount: $1050.00"

/-- The §8 reconciliation-match receipt text. -/
def sec8ReceiptText : String :=
  "Vendor: Test Vendor\nItem: Laptop Qty: 1 Unit Price: 1000.00\nTotal: $1000.00"

/-- The §8 reconciliation-match PO metadata. -/
def poC9 : PMetaJson :=
  ⟨some (codes "Test Vendor"), some (codes "USD"), some (codes "1000"),
   some [⟨codes "Laptop", 1, codes "1000.00"⟩]⟩

/-- The result of validating `sec8ReceiptText` against `poC9`. -/
def vrSec8 : ValidationResult :=
  { is_valid := true, reason := none, vendor_mm := none, amount_mm := none,
    items_mm := none, raw_excerpt := some (codes sec8ReceiptText) }

/-- The result of validating the itemless text `"Receipt data"` against
`poC9`. -/
def c8wRes : ValidationResult :=
  { is_valid := false, reason := none, vendor_mm := none, amount_mm := none,
    items_mm := some [⟨none, codes "No items found in receipt"⟩],
    raw_excerpt := some (codes "Receipt data") }

/-- A stored proforma metadata blob whose `"items"` key is present but holds
the empty list (which the regex fallback produces whenever no item line
matches). -/
def pmEmptyItems : PMetaJson :=
  ⟨some (codes "Acme"), some (codes "USD"), some (codes "100"), some []⟩

/-- A `RequestItem` row of the request owning `pmEmptyItems`. -/
def rItemLaptop : RItem := ⟨codes "Laptop", 1, ⟨100000, 2⟩⟩

/-- A request already in a terminal state. -/
def termReq : Req := { initReq "printer" ⟨100, 0⟩ 7 with status := .approved }

/-- A freshly created two-level request. -/
def reqL1 : Req := initReq "laptop" ⟨5, 0⟩ 1

/-- `reqL1` after the level-1 approval by user 9. -/
def reqL2 : Req :=
  { reqL1 with
    current_approval_level := 2
    steps := setStep reqL1.steps 1 ⟨some 9, .approved, []⟩ }

/-- The specification's reading of the `_extract_number_from_text`
tie-break: the right-most (last in left-to-right order) digit-bearing
group. -/
def lastDigitBearing (gs : List (Option (List Nat))) : Option (Option (List Nat)) :=
  gs.foldl (fun acc g => if digitBearing g then some g else acc) none

/-! ## Theorems -/

set_option maxRecDepth 40000

/-! ### Frame lemmas for `setStep` (`update_or_create` on the unique
`(request, level)` key) -/

theorem setStep_lookup_self (steps : List (Nat × Step)) (level : Nat) (s : Step) :
    (setStep steps level s).lookup level = some s := by
  induction steps with
  | nil => simp [setStep, List.lookup]
  | cons p t ih =>
    by_cases h : p.1 = level
    · simp [setStep, h, List.lookup]
    · have hb : (level == p.1) = false := beq_eq_false_iff_ne.mpr (fun hh => h hh.symm)
      simp [setStep, h, List.lookup, hb, ih]

theorem setStep_lookup_ne (steps : List (Nat × Step)) (level l : Nat) (s : Step)
    (h : l ≠ level) : (setStep steps level s).lookup l = steps.lookup l := by
  induction steps with
  | nil =>
    have hb : (l == level) = false := beq_eq_false_iff_ne.mpr h
    simp [setStep, List.lookup, hb]
  | cons p t ih =>
    by_cases hp : p.1 = level
    · subst hp
      have hb : (l == p.1) = false := beq_eq_false_iff_ne.mpr h
      simp [setStep, List.lookup, hb]
    · simp only [setStep, if_neg hp, List.lookup]
      cases hb : (l == p.1) <;> simp [hb, ih]

/-! ### Inversion lemmas for the two state transitions -/

theorem not_terminal_pending (r : Req) (h : r.is_terminal = false) :
    r.status = .pending := by
  unfold Req.is_terminal at h
  cases hs : r.status <;> rw [hs] at h <;> first | rfl | exact absurd h (by simp)

theorem mark_approved_ok_cases (r : Req) (a : Nat)
    (md : Option (List (String × String))) (r' : Req)
    (h : mark_approved r a md = .ok r') :
    r.is_terminal = false ∧
    r'.required_approval_levels = r.required_approval_levels ∧
    r'.steps = setStep r.steps r.current_approval_level
      ⟨some a, .approved, md.getD []⟩ ∧
    ((r.required_approval_levels ≤ r.current_approval_level ∧
        r'.status = .approved ∧ r'.approved_by = some a ∧
        r'.current_approval_level = r.current_approval_level) ∨
      (¬ r.required_approval_levels ≤ r.current_approval_level ∧
        r'.current_approval_level = r.current_approval_level + 1 ∧
        r'.status = r.status ∧ r'.approved_by = r.approved_by)) := by
  unfold mark_approved at h
  by_cases ht : r.is_terminal
  · rw [if_pos ht] at h
    exact absurd h (by simp)
  · rw [if_neg ht] at h
    refine ⟨by simpa using ht, ?_⟩
    by_cases hl : r.required_approval_levels ≤ r.current_approval_level
    · rw [if_pos hl] at h
      injection h with h
      subst h
      exact ⟨rfl, rfl, Or.inl ⟨hl, rfl, rfl, rfl⟩⟩
    · rw [if_neg hl] at h
      injection h with h
      subst h
      exact ⟨rfl, rfl, Or.inr ⟨hl, rfl, rfl, rfl⟩⟩

theorem mark_rejected_ok_fields (r : Req) (a : Nat) (reason : String) (r' : Req)
    (h : mark_rejected r a reason = .ok r') :
    r.is_terminal = false ∧
    r'.status = .rejected ∧ r'.approved_by = some a ∧
    r'.current_approval_level = r.current_approval_level ∧
    r'.required_approval_levels = r.required_approval_levels ∧
    r'.title = r.title ∧ r'.amount = r.amount ∧ r'.created_by = r.created_by ∧
    r'.steps = setStep r.steps r.current_approval_level
      ⟨some a, .rejected, [("reason", reason)]⟩ := by
  unfold mark_rejected at h
  by_cases ht : r.is_terminal
  · rw [if_pos ht] at h
    exact absurd h (by simp)
  · rw [if_neg ht] at h
    injection h with h
    subst h
    exact ⟨by simpa using ht, rfl, rfl, rfl, rfl, rfl, rfl, rfl, rfl⟩

/-- C1: For every purchase request whose status is APPROVED or REJECTED
(terminal), any call to approve (`mark_approved`) or reject
(`mark_rejected`) fails with a domain error (`ValueError`, raised before
any write), and — the transaction being rolled back — every field of the
request and every `ApprovalStep` is left unchanged by the failed call. -/
theorem C1_terminal_immutability (r : Req) (a : Nat)
    (md : Option (List (String × String))) (reason : String)
    (h : r.is_terminal = true) :
    mark_approved r a md = .error "Cannot approve a terminal request" ∧
    mark_rejected r a reason = .error "Cannot reject a terminal request" ∧
    approveOutcome r a md = r ∧
    rejectOutcome r a reason = r := by
  unfold approveOutcome rejectOutcome mark_approved mark_rejected
  simp [h]

theorem C1_terminal_immutability_witness :
    termReq.is_terminal = true ∧
    mark_approved termReq 8 none = .error "Cannot approve a terminal request" ∧
    mark_rejected termReq 8 "dup" = .error "Cannot reject a terminal request" ∧
    approveOutcome termReq 8 none = termReq ∧
    rejectOutcome termReq 8 "dup" = termReq :=
  ⟨rfl, C1_terminal_immutability termReq 8 none "dup" rfl⟩

/-- C2: For every non-terminal request (with the invariant, preserved from
creation, that the current level never exceeds the required levels), a
successful `mark_approved` either sets status=APPROVED and
approved_by=approver when `current_approval_level` equals
`required_approval_levels`, or otherwise increments
`current_approval_level` by exactly one leaving status PENDING; hence the
level never decreases and changes by at most one per APPROVED decision
(and not at all on a rejection). -/
theorem C2_monotonic_leveling :
    (∀ r, Reachable r → r.current_approval_level ≤ r.required_approval_levels) ∧
    (∀ r a md r', r.current_approval_level ≤ r.required_approval_levels →
      mark_approved r a md = .ok r' →
      if r.current_approval_level = r.required_approval_levels then
        r'.status = .approved ∧ r'.approved_by = some a ∧
          r'.current_approval_level = r.current_approval_level
      else
        r'.status = .pending ∧
          r'.current_approval_level = r.current_approval_level + 1) ∧
    (∀ r a md r', mark_approved r a md = .ok r' →
      r.current_approval_level ≤ r'.current_approval_level ∧
      r'.current_approval_level ≤ r.current_approval_level + 1) ∧
    (∀ r a s r', mark_rejected r a s = .ok r' →
      r'.current_approval_level = r.current_approval_level) := by
  refine ⟨?_, ?_, ?_, ?_⟩
  · intro r hr
    induction hr with
    | init t a c => simp [initReq]
    | approve r a md r' _ hok ih =>
      obtain ⟨_, hreq, _, hcases⟩ := mark_approved_ok_cases _ _ _ _ hok
      rcases hcases with ⟨hle, _, _, hlev⟩ | ⟨hlt, hlev, _, _⟩ <;> omega
    | reject r a s r' _ hok ih =>
      obtain ⟨_, _, _, hlev, hreq, _⟩ := mark_rejected_ok_fields _ _ _ _ hok
      omega
  · intro r a md r' hle hok
    obtain ⟨ht, _, _, hcases⟩ := mark_approved_ok_cases _ _ _ _ hok
    by_cases heq : r.current_approval_level = r.required_approval_levels
    · rw [if_pos heq]
      rcases hcases with ⟨_, hs, hab, hlev⟩ | ⟨hlt, _, _, _⟩
      · exact ⟨hs, hab, hlev⟩
      · omega
    · rw [if_neg heq]
      rcases hcases with ⟨hge, _, _, _⟩ | ⟨_, hlev, hst, _⟩
      · omega
      · exact ⟨hst.trans (not_terminal_pending r ht), hlev⟩
  · intro r a md r' hok
    obtain ⟨_, _, _, hcases⟩ := mark_approved_ok_cases _ _ _ _ hok
    rcases hcases with ⟨_, _, _, hlev⟩ | ⟨_, hlev, _, _⟩ <;> omega
  · intro r a s r' hok
    exact (mark_rejected_ok_fields _ _ _ _ hok).2.2.2.1

theorem C2_monotonic_leveling_witness :
    reqL1.current_approval_level ≤ reqL1.required_approval_levels ∧
    reqL2.status = .pending ∧
    reqL2.current_approval_level = reqL1.current_approval_level + 1 := by
  have h := C2_monotonic_leveling.2.1 reqL1 9 none reqL2 (by decide) rfl
  rw [if_neg (by decide)] at h
  exact ⟨by decide, h⟩

/-- C3: For every non-terminal request at its current level k, a successful
`mark_rejected` sets status=REJECTED and approved_by to the rejecting
approver regardless of k, records decision=REJECTED with metadata
`{"reason": reason}` on the `ApprovalStep` for level k only, and does not
touch the `ApprovalStep` of any level other than k. -/
theorem C3_rejection_short_circuit (r : Req) (a : Nat) (reason : String) (r' : Req)
    (_hk : 1 ≤ r.current_approval_level ∧
      r.current_approval_level ≤ r.required_approval_levels)
    (h : mark_rejected r a reason = .ok r') :
    r'.status = .rejected ∧ r'.approved_by = some a ∧
    r'.steps.lookup r.current_approval_level =
      some ⟨some a, .rejected, [("reason", reason)]⟩ ∧
    (∀ l, l ≠ r.current_approval_level → r'.steps.lookup l = r.steps.lookup l) := by
  obtain ⟨_, hs, hab, _, _, _, _, _, hsteps⟩ := mark_rejected_ok_fields _ _ _ _ h
  refine ⟨hs, hab, ?_, ?_⟩
  · rw [hsteps]
    exact setStep_lookup_self _ _ _
  · intro l hl
    rw [hsteps]
    exact setStep_lookup_ne _ _ _ _ hl

theorem C3_rejection_short_circuit_witness :
    mark_rejected reqL1 9 "too costly" =
      .ok { reqL1 with
            steps := setStep reqL1.steps 1 ⟨some 9, .rejected, [("reason", "too costly")]⟩
            status := .rejected
            approved_by := some 9 } ∧
    (1 ≤ reqL1.current_approval_level ∧
      reqL1.current_approval_level ≤ reqL1.required_approval_levels) ∧
    ({ reqL1 with
        steps := setStep reqL1.steps 1 ⟨some 9, .rejected, [("reason", "too costly")]⟩
        status := .rejected
        approved_by := some 9 } : Req).steps.lookup 2 = reqL1.steps.lookup 2 := by
  refine ⟨rfl, ⟨by decide, by decide⟩, ?_⟩
  exact (C3_rejection_short_circuit reqL1 9 "too costly" _
    ⟨by decide, by decide⟩ rfl).2.2.2 2 (by decide)

/-- C10: For every non-terminal request, a successful `mark_rejected`
leaves `current_approval_level` unchanged (its save persists only `status`,
`approved_by` and `updated_at`), as well as every other request field, so
the level at which the rejection occurred remains readable after the
request becomes terminal. -/
theorem C10_reject_preserves_level (r : Req) (a : Nat) (reason : String) (r' : Req)
    (h : mark_rejected r a reason = .ok r') :
    r'.current_approval_level = r.current_approval_level ∧
    r'.required_approval_levels = r.required_approval_levels ∧
    r'.title = r.title ∧ r'.amount = r.amount ∧ r'.created_by = r.created_by := by
  obtain ⟨_, _, _, h4, h5, h6, h7, h8, _⟩ := mark_rejected_ok_fields _ _ _ _ h
  exact ⟨h4, h5, h6, h7, h8⟩

theorem C10_reject_preserves_level_witness :
    (rejectOutcome reqL1 9 "no").current_approval_level =
      reqL1.current_approval_level :=
  (C10_reject_preserves_level reqL1 9 "no" (rejectOutcome reqL1 9 "no") rfl).1

/-! ### The document pipeline -/

theorem foldl_pick_eq_find?_reverse {α : Type} (p : α → Bool) (l : List α)
    (acc : Option α) :
    l.foldl (fun a g => if p g then some g else a) acc = (l.reverse.find? p).or acc := by
  induction l generalizing acc with
  | nil => simp
  | cons x t ih =>
    simp only [List.foldl_cons, List.reverse_cons, List.find?_append, ih]
    cases h : t.reverse.find? p <;> by_cases hp : p x <;>
      simp [h, hp, Option.or, List.find?]

/-- C6: For every list of capture groups produced by a match of a
total-amount pattern, `_extract_number_from_text` selects the right-most
digit-bearing group (the last one in left-to-right order), removes the
thousands commas and returns the exact `Decimal`; it returns `None` when no
group contains a digit or when the value does not parse.  On the concrete
pattern the optional currency-symbol group is skipped in favour of the
numeral, `"1,050.00"` parsing exactly to 1050.00. -/
theorem C6_rightmost_digit_group :
    (∀ gs : List (Option (List Nat)),
      numberFromGroups gs =
        match lastDigitBearing gs with
        | some (some cs) => decParse (strip (stripCommas cs))
        | _ => none) ∧
    extract_number_from_text totalRE 2 (codes "Total: $1,050.00") = some ⟨105000, 2⟩ ∧
    numberFromGroups [some (codes "$"), none] = none ∧
    numberFromGroups [some (codes "12.34.56")] = none := by
  refine ⟨?_, by decide, by decide, by decide⟩
  intro gs
  unfold numberFromGroups lastDigitBearing
  rw [foldl_pick_eq_find?_reverse]
  cases h : gs.reverse.find? digitBearing with
  | none => simp [Option.or]
  | some v => cases v <;> simp [Option.or]

/-- C5 (counterexample): with a stored `proforma_metadata` whose `"items"`
key is present but empty and a non-empty `RequestItem` list, the snapshot's
`items` is the empty list — not the list derived from the request's own
rows that the claim requires in the "empty or absent" case. -/
theorem C5_items_counterexample :
    (generate_purchase_order (some pmEmptyItems) ⟨100000, 2⟩ [rItemLaptop]).items = [] ∧
    [rItemLaptop].map
        (fun it => (⟨it.description, it.quantity, it.unit_price.render⟩ : POItem)) =
      [⟨codes "Laptop", 1, codes "1000.00"⟩] ∧
    ([] : List POItem) ≠ [⟨codes "Laptop", 1, codes "1000.00"⟩] :=
  ⟨by decide, by decide, by decide⟩

/-- C5 (amended): `generate_purchase_order` sets the purchase-order
metadata's `items` to the proforma metadata's `items` value whenever that
key is present — even when the list is empty — and derives items from the
request's own `RequestItem` rows (description, quantity, unit_price
rendered as strings) only when the metadata is falsy or lacks the key. -/
theorem C5_items_amended (pm : Option PMetaJson) (amount : Dec)
    (reqItems : List RItem) :
    (∀ m l, pm = some m → m.items = some l →
      (generate_purchase_order pm amount reqItems).items = l) ∧
    ((pm = none ∨ ∃ m, pm = some m ∧ m.items = none) →
      (generate_purchase_order pm amount reqItems).items =
        reqItems.map (fun it => ⟨it.description, it.quantity, it.unit_price.render⟩)) := by
  constructor
  · rintro m l rfl hl
    simp [generate_purchase_order, hl]
  · rintro (rfl | ⟨m, rfl, hm⟩) <;>
      simp [generate_purchase_order, emptyPMetaJson, *]

theorem C5_items_amended_witness :
    (generate_purchase_order (some pmEmptyItems) ⟨100000, 2⟩ [rItemLaptop]).items = [] :=
  (C5_items_amended (some pmEmptyItems) ⟨100000, 2⟩ [rItemLaptop]).1
    pmEmptyItems [] rfl rfl

/-- C7: With no AI credential configured, deterministic extraction on the
§8 proforma text returns vendor "Acme Supplies Inc.", currency "USD",
total_amount "1050.00", the Laptop and Mouse items (whose exact decimal
prices render as "1000.00" and "25.00"), extraction_method "regex" and
extraction_error false. -/
theorem C7_fallback_determinism :
    extract_proforma_metadata (codes c7Text) =
      { vendor := codes "Acme Supplies Inc."
        currency := codes "USD"
        total_amount := codes "1050.00"
        items := [⟨codes "Laptop", 1, ⟨100000, 2⟩⟩, ⟨codes "Mouse", 2, ⟨2500, 2⟩⟩]
        raw_excerpt := codes c7Text
        extraction_method := codes "regex"
        extraction_error := false } ∧
    Dec.render ⟨100000, 2⟩ = codes "1000.00" ∧
    Dec.render ⟨2500, 2⟩ = codes "25.00" :=
  ⟨by decide, by decide, by decide⟩

/-- C8 (counterexample): a call with a missing receipt returns immediately
with `is_valid` false and the `reason` mismatch key, but the returned
record has no `raw_excerpt` key at all — contradicting the claim that every
invocation's record contains a `raw_excerpt` prefix. -/
theorem C8_missing_input_counterexample :
    (validate_receipt none (some poC9)).map ValidationResult.raw_excerpt = some none ∧
    (validate_receipt none (some poC9)).map ValidationResult.is_valid = some false ∧
    (validate_receipt none (some poC9)).map ValidationResult.reason =
      some (some (codes "Missing receipt or PO metadata.")) :=
  ⟨rfl, rfl, rfl⟩

/-- C8 (amended): whenever both inputs are present and `validate_receipt`
returns, the returned record's `raw_excerpt` is the bounded 500-character
prefix of the extracted receipt text, independent of validity; when either
input is missing the function instead returns immediately — not valid, with
a `reason` mismatch key, no extraction attempted and no `raw_excerpt`
key. -/
theorem C8_raw_excerpt_amended :
    (∀ t pm r, validate_receipt (some t) (some pm) = some r →
      r.raw_excerpt = some (t.take 500)) ∧
    (∀ rt pm, rt = none ∨ pm = none →
      validate_receipt rt pm =
        some { is_valid := false
               reason := some (codes "Missing receipt or PO metadata.")
               vendor_mm := none
               amount_mm := none
               items_mm := none
               raw_excerpt := none }) := by
  constructor
  · intro t pm r h
    simp only [validate_receipt] at h
    cases ham : amountCheck t pm <;> rw [ham] at h
    · exact absurd h (by simp)
    · cases him : itemsCheck t pm <;> rw [him] at h
      · exact absurd h (by simp)
      · injection h with h
        subst h
        rfl
  · rintro rt pm (rfl | rfl)
    · rfl
    · cases rt <;> rfl

theorem C8_raw_excerpt_amended_witness :
    c8wRes.raw_excerpt = some ((codes "Receipt data").take 500) :=
  C8_raw_excerpt_amended.1 (codes "Receipt data") poC9 c8wRes (by decide)

/-- C9: In `validate_receipt` (for every call that returns), an amount
mismatch is recorded if and only if a total was located in the receipt text
and it differs from the PO's recorded total when both sides are compared as
exact `Decimal` values; in particular the §8 matching pair — PO total
"1000" against extracted receipt total "1000.00" — is not a mismatch, and
the whole validation yields `is_valid` true with empty mismatches. -/
theorem C9_amount_exact_decimal :
    (∀ t pm r, validate_receipt (some t) (some pm) = some r →
      (r.amount_mm.isSome = true ↔
        ∃ d a b, extract_number_from_text totalRE 2 t = some d ∧
          decParse d.render = some a ∧ decParse (pmTotal pm) = some b ∧
          a.numEq b = false)) ∧
    validate_receipt (some (codes sec8ReceiptText)) (some poC9) = some vrSec8 ∧
    vrSec8.is_valid = true ∧
    vrSec8.vendor_mm = none ∧ vrSec8.amount_mm = none ∧ vrSec8.items_mm = none ∧
    extract_number_from_text totalRE 2 (codes sec8ReceiptText) = some ⟨100000, 2⟩ ∧
    decParse (pmTotal poC9) = some ⟨1000, 0⟩ ∧
    Dec.numEq ⟨100000, 2⟩ ⟨1000, 0⟩ = true := by
  refine ⟨?_, by decide, by decide, by decide, by decide, by decide, by decide,
    by decide, by decide⟩
  intro t pm r h
  simp only [validate_receipt] at h
  cases ham : amountCheck t pm <;> rw [ham] at h
  · exact absurd h (by simp)
  · case some am =>
    cases him : itemsCheck t pm <;> rw [him] at h
    · exact absurd h (by simp)
    · injection h with h
      subst h
      show am.isSome = true ↔ _
      unfold amountCheck at ham
      split at ham
      · next hd =>
        injection ham with ham
        subst ham
        simp [hd]
      · next d hd =>
        split at ham
        · next => exact Option.noConfusion ham
        · next a ha =>
          split at ham
          · next => exact Option.noConfusion ham
          · next b hb =>
            injection ham with ham
            subst ham
            cases hne : a.numEq b <;> simp [hd, ha, hb, hne]

theorem C9_amount_exact_decimal_witness :
    vrSec8.amount_mm.isSome = true ↔
      ∃ d a b, extract_number_from_text totalRE 2 (codes sec8ReceiptText) = some d ∧
        decParse d.render = some a ∧ decParse (pmTotal poC9) = some b ∧
        a.numEq b = false :=
  C9_amount_exact_decimal.1 (codes sec8ReceiptText) poC9 vrSec8 (by decide)

end Procure2Pay
